import Mathlib

/-!
Verification of `debian_iso_customizer.py`.

This file gives a shallow embedding of the pure/decidable parts of the
Debian ISO customizer: the bootloader patching (string transformations of
`_update_bootloader_configs`), the post-install script generation
(`_generate_post_install_script`), the USB drive discovery filter
(`_find_usb_drives`), the flash workflow (`_flash_usb_drive` and the flash
section of `create`), and the sequential `create` pipeline.  External tools
(xorriso, lsblk, dd, eject, umount) and filesystem state are modelled as
explicit environment inputs; an uncaught Python exception is modelled as a
fatal result value.
-/

namespace DebianIsoCustomizer

/-! ### Constants (module-level constants of the script) -/

def SOURCE_ISO_PATH : String := "debian-13.0.0-amd64-netinst.iso"

def WORKSPACE_DIR : String := "iso-extract"

def CUSTOM_ISO_NAME : String := "custom-debian-13.iso"

def PRESEED_FILENAME : String := "preseed.cfg"

def POST_INSTALL_CONFIG : String := "post_install_config.json"

/-! ### Bootloader patching (`_update_bootloader_configs`)

The function reads each boot config file, builds a new text from an
f-string, and writes it back.  We embed the two text transformations as
pure functions on the original file content. -/

/-- Value of `isolinux_autoinstall_config` in the source: the triple-quoted
literal after Python's `.strip()` has removed the leading newline and the
trailing newline plus indentation. -/
def isolinuxAutoinstallConfig : String :=
  "DEFAULT autoinstall\nLABEL autoinstall\n    MENU LABEL Automated Install\n    KERNEL /install.amd/vmlinuz\n    APPEND initrd=/install.amd/initrd.gz --- quiet auto=true priority=critical preseed/file=/cdrom/preseed.cfg"

/-- Value of `grub_autoinstall_entry` in the source, after `.strip()`.
Braces and apostrophes of the grub text are written with \x escapes. -/
def grubAutoinstallEntry : String :=
  "menuentry \x27Automated Unattended Install\x27 --class auto \x7b\n    linux    /install.amd/vmlinuz --- quiet auto=true priority=critical preseed/file=/cdrom/preseed.cfg\n    initrd   /install.amd/initrd.gz\n\x7d"

/-- The ISOLINUX transformation: `modified_isolinux_content =
f"TIMEOUT 10\n{isolinux_autoinstall_config}\n{original_isolinux_content}"`. -/
def patchIsolinuxCfg (original : String) : String :=
  "TIMEOUT 10\n" ++ isolinuxAutoinstallConfig ++ "\n" ++ original

/-- The GRUB transformation: `modified_grub_content =
f'set timeout=1\nset default="0"\n\n{grub_autoinstall_entry}\n\n{original_grub_content}'`. -/
def patchGrubCfg (original : String) : String :=
  "set timeout=1\nset default=\"0\"\n\n" ++ grubAutoinstallEntry ++ "\n\n" ++ original

/-- Everything `patchIsolinuxCfg` places before the original text. -/
def isolinuxHeader : String :=
  "TIMEOUT 10\n" ++ isolinuxAutoinstallConfig ++ "\n"

/-- Everything `patchGrubCfg` places before the original text. -/
def grubHeader : String :=
  "set timeout=1\nset default=\"0\"\n\n" ++ grubAutoinstallEntry ++ "\n\n"

/-! ### Post-install script generation (`_generate_post_install_script`)

The JSON config is modelled structurally: an absent JSON key is `none`.
`config.get("packages", [])` and `config.get("ssh_key", {}).get(...)`
become `Option.getD` with the same defaults. -/

/-- The `ssh_key` object of the JSON config; `typ` embeds the JSON key
named `type` (a Lean keyword). -/
structure SshKeyConfig where
  typ : Option String
  user : Option String
deriving DecidableEq

/-- The parsed `post_install_config.json` contents. -/
structure PostInstallConfig where
  packages : Option (List String)
  ssh_key : Option SshKeyConfig
deriving DecidableEq

/-- `config.get("packages", [])`. -/
def effectivePackages (cfg : PostInstallConfig) : List String :=
  cfg.packages.getD []

/-- `packages = " ".join(config.get("packages", []))`. -/
def packagesJoined (cfg : PostInstallConfig) : String :=
  String.intercalate " " (effectivePackages cfg)

/-- `ssh_key_config = config.get("ssh_key", {})`; the empty dict has
neither key, hence both fields `none`. -/
def effectiveSshKeyConfig (cfg : PostInstallConfig) : SshKeyConfig :=
  cfg.ssh_key.getD ⟨none, none⟩

/-- `ssh_key_type = ssh_key_config.get("type", "ed25519")`. -/
def effectiveSshKeyType (cfg : PostInstallConfig) : String :=
  (effectiveSshKeyConfig cfg).typ.getD "ed25519"

/-- `ssh_user = ssh_key_config.get("user", "user")`. -/
def effectiveSshUser (cfg : PostInstallConfig) : String :=
  (effectiveSshKeyConfig cfg).user.getD "user"

/-- The key-generation line of the script:
`sudo -u {u} ssh-keygen -t {t} -f /home/{u}/.ssh/id_rsa -N ""`. -/
def keygenCmd (u t : String) : String :=
  "sudo -u " ++ u ++ " ssh-keygen -t " ++ t ++ " -f /home/" ++ u ++ "/.ssh/id_rsa -N \"\""

/-- Literal part of the script f-string before `{packages}`. -/
def scriptHead : String :=
  "#!/bin/bash\nset -e\n\n# --- Install packages ---\napt-get update\napt-get install -y --no-install-recommends "

/-- Literal part of the script f-string between `{packages}` and the
key-generation line. -/
def scriptAfterPackages : String :=
  "\n\n# --- Generate SSH key ---\n"

/-- Literal part of the script f-string after the key-generation line. -/
def scriptTail : String :=
  "\n\n# --- Clean up ---\napt-get clean\nrm -rf /var/lib/apt/lists/*\n\necho \"Post-installation setup complete.\"\n"

/-- `script_content` of `_generate_post_install_script`, assembled exactly
as the f-string assembles it. -/
def generatePostInstallScript (cfg : PostInstallConfig) : String :=
  scriptHead ++ packagesJoined cfg ++ scriptAfterPackages
    ++ keygenCmd (effectiveSshUser cfg) (effectiveSshKeyType cfg) ++ scriptTail

/-- Accumulating splitter behind `wordsOf`: walks the characters,
collecting the current token in reverse. -/
def wordsAux : List Char → List Char → List String
  | [], acc => if acc.isEmpty then [] else [⟨acc.reverse⟩]
  | c :: cs, acc =>
      if c = ' ' then
        if acc.isEmpty then wordsAux cs [] else ⟨acc.reverse⟩ :: wordsAux cs []
      else wordsAux cs (c :: acc)

/-- Splits a command line at spaces into its non-empty tokens. -/
def wordsOf (s : String) : List String :=
  wordsAux s.data []

/-! ### USB drive discovery (`_find_usb_drives`) -/

/-- One entry of `lsblk -J -o NAME,SIZE,TYPE,TRAN` output.  `lsblk` always
emits the `name` and `size` keys for these columns; `tran` and `type` may
be `null`/absent, which `dev.get` turns into `None` — hence `Option`.
`devType` embeds the JSON key named `type`. -/
structure BlockDevice where
  name : String
  size : String
  devType : Option String
  tran : Option String
deriving DecidableEq

/-- The descriptor `_find_usb_drives` builds per kept device. -/
structure UsbDrive where
  name : String
  size : String
deriving DecidableEq

/-- Outcome of the `lsblk` subprocess call as observed by the `try` block:
the tool may be absent (`FileNotFoundError`), exit nonzero
(`CalledProcessError`), print unparseable output (`json.JSONDecodeError`),
or succeed with a device list. -/
inductive LsblkResult
  | toolMissing
  | exitNonzero
  | badJson
  | ok (devices : List BlockDevice)
deriving DecidableEq

/-- `_find_usb_drives`: on success, keep devices with `tran == "usb"` and
`type == "disk"` and return `/dev/`-prefixed descriptors; every caught
exception yields `[]`. -/
def findUsbDrives (r : LsblkResult) : List UsbDrive :=
  match r with
  | .ok devices =>
      (devices.filter
        (fun dev => dev.tran == some "usb" && dev.devType == some "disk")).map
        (fun dev => { name := "/dev/" ++ dev.name, size := dev.size })
  | _ => []

/-! ### Flashing (`_flash_usb_drive` and the flash section of `create`)

External tools and the interactive prompt answers are inputs; the trace of
invoked tools is part of the result.  A `typer.Exit()` raised on a
declined confirmation is the `cancelled` outcome; an uncaught
`subprocess.CalledProcessError` (from `check=True`) is `fatalError`. -/

/-- A tool invocation performed by the flash workflow. -/
inductive ToolCall
  | umount (device : String)
  | ddWrite (device : String)
  | eject (device : String)
deriving DecidableEq

/-- How a `_flash_usb_drive` call ends. -/
inductive FlashOutcome
  | success
  | cancelled
  | fatalError
deriving DecidableEq

/-- Answers and tool behaviours a flash run encounters. -/
structure FlashEnv where
  confirmAnswer : Bool
  umountOk : Bool
  ddOk : Bool
  ejectOk : Bool
deriving DecidableEq

/-- `_flash_usb_drive(device, force)`: unmount (failure swallowed by the
`try`/`except`), then unless `force` require the interactive confirmation
(declining raises `typer.Exit()`), then `dd` with `check=True`, then
`eject` with `check=True` and no surrounding `try`. -/
def flashUsbDrive (device : String) (force : Bool) (env : FlashEnv) :
    List ToolCall × FlashOutcome :=
  let t0 : List ToolCall := [.umount device]
  if !force && !env.confirmAnswer then
    (t0, .cancelled)
  else
    let t1 := t0 ++ [.ddWrite device]
    if !env.ddOk then
      (t1, .fatalError)
    else
      let t2 := t1 ++ [.eject device]
      if !env.ejectOk then
        (t2, .fatalError)
      else
        (t2, .success)

/-- A call of `_flash_usb_drive` made by `create`, with the `force`
argument it passed. -/
structure FlashCall where
  device : String
  force : Bool
deriving DecidableEq

/-- How the flash section of `create` ends: reaching the final
"Process complete." print, exiting via the propagated `typer.Exit()` of a
declined in-flash confirmation, or aborting on a propagated
`CalledProcessError`. -/
inductive StageOutcome
  | completed
  | cancelledExit
  | fatalError
deriving DecidableEq

/-- The prompt answers consumed by the flash section of `create`. -/
structure UserInput where
  flashPrompt : Bool
  driveChoice : Option Int
deriving DecidableEq

/-- Lifts a flash outcome to the enclosing `create` run: `create` neither
catches `typer.Exit` nor `CalledProcessError`. -/
def liftOutcome : FlashOutcome → StageOutcome
  | .success => .completed
  | .cancelled => .cancelledExit
  | .fatalError => .fatalError

/-- The optional flash section at the end of `create` (lines following
`usb_drives = _find_usb_drives()`): a single discovered drive is flashed
with `force=True` after one confirmation; several drives require a
confirmation plus a numbered selection (`int(choice) - 1`; a parse failure
or out-of-range index flashes nothing) and are flashed with the default
`force=False`. -/
def createFlashStage (drives : List UsbDrive) (input : UserInput) (env : FlashEnv) :
    List ToolCall × List FlashCall × StageOutcome :=
  match drives with
  | [] => ([], [], .completed)
  | [d] =>
      if input.flashPrompt then
        let r := flashUsbDrive d.name true env
        (r.1, [⟨d.name, true⟩], liftOutcome r.2)
      else
        ([], [], .completed)
  | _ :: _ :: _ =>
      if input.flashPrompt then
        match input.driveChoice with
        | none => ([], [], .completed)
        | some n =>
            let idx := n - 1
            if idx < 0 then
              ([], [], .completed)
            else
              match drives[idx.toNat]? with
              | some d =>
                  let r := flashUsbDrive d.name false env
                  (r.1, [⟨d.name, false⟩], liftOutcome r.2)
              | none => ([], [], .completed)
      else
        ([], [], .completed)

/-! ### The `create` pipeline up to the ISO rebuild

The build stages run strictly in sequence; each failing stage raises
(`typer.Exit(code=1)` after printing an error, or `CalledProcessError`)
and aborts the rest.  Filesystem facts are environment inputs; the
workspace boot configs are the carried state. -/

/-- The build stages of `create` in order. -/
inductive Stage
  | verifyPrereqs
  | extractIso
  | createPreseed
  | generatePostInstall
  | updateBootloader
  | rebuildIso
deriving DecidableEq

/-- Environment of one `create` run: tool availability, input-file
presence, parsed config, and the boot-config texts the extraction places
in the workspace. -/
structure BuildEnv where
  xorrisoAvailable : Bool
  extractOk : Bool
  preseedExists : Bool
  postInstallConfigExists : Bool
  postInstallConfig : PostInstallConfig
  isolinuxCfg : String
  grubCfg : String
  rebuildOk : Bool

/-- Workspace state the pipeline mutates. -/
structure BuildState where
  isolinuxCfg : String
  grubCfg : String
  postInstallScript : Option String
deriving DecidableEq

/-- Result of the build part of `create`: `ok`, or a fatal abort carrying
the plain text of the error message printed before `typer.Exit(code=1)`
(markup stripped), or the name of the failing external command. -/
inductive BuildResult
  | ok
  | fatal (msg : String)
deriving DecidableEq

/-- The build part of `create` (`_verify_prerequisites` through
`_rebuild_iso`), returning the stages that completed, the final workspace
state, and the result. -/
def createPipeline (env : BuildEnv) : List Stage × BuildState × BuildResult :=
  let st0 : BuildState := ⟨env.isolinuxCfg, env.grubCfg, none⟩
  if !env.xorrisoAvailable then
    ([], st0, .fatal "Error: `xorriso` is not installed or not in the system PATH.")
  else if !env.extractOk then
    ([.verifyPrereqs], st0, .fatal "xorriso -osirrox extraction failed")
  else if !env.preseedExists then
    ([.verifyPrereqs, .extractIso], st0,
      .fatal ("Error: Preseed file not found at \x27" ++ PRESEED_FILENAME ++ "\x27."))
  else if !env.postInstallConfigExists then
    ([.verifyPrereqs, .extractIso, .createPreseed], st0,
      .fatal ("Error: Post-install config not found at \x27" ++ POST_INSTALL_CONFIG ++ "\x27."))
  else
    let st1 : BuildState :=
      { st0 with postInstallScript := some (generatePostInstallScript env.postInstallConfig) }
    let st2 : BuildState :=
      { st1 with
        isolinuxCfg := patchIsolinuxCfg st1.isolinuxCfg
        grubCfg := patchGrubCfg st1.grubCfg }
    if !env.rebuildOk then
      ([.verifyPrereqs, .extractIso, .createPreseed, .generatePostInstall, .updateBootloader],
        st2, .fatal "xorriso -as mkisofs rebuild failed")
    else
      ([.verifyPrereqs, .extractIso, .createPreseed, .generatePostInstall, .updateBootloader,
        .rebuildIso], st2, .ok)

/-- The mixed device list of the discovery scenario: a SATA whole disk,
its partition, one USB whole disk, and a USB partition. -/
def mixedDeviceList : List BlockDevice :=
  [⟨"sda", "500G", some "disk", some "sata"⟩,
   ⟨"sda1", "500G", some "part", some "sata"⟩,
   ⟨"sdb", "16G", some "disk", some "usb"⟩,
   ⟨"sdb1", "16G", some "part", some "usb"⟩]

/-! ### Helper lemmas -/

theorem patchIsolinuxCfg_eq (original : String) :
    patchIsolinuxCfg original = isolinuxHeader ++ original := by
  simp [patchIsolinuxCfg, isolinuxHeader, String.append_assoc]

theorem patchGrubCfg_eq (original : String) :
    patchGrubCfg original = grubHeader ++ original := by
  simp [patchGrubCfg, grubHeader, String.append_assoc]

/-- A `dd` invocation appears in a flash trace only when `force` was set
or the interactive confirmation was affirmative. -/
theorem flashUsbDrive_ddWrite_gated (device d : String) (force : Bool) (env : FlashEnv)
    (h : ToolCall.ddWrite d ∈ (flashUsbDrive device force env).1) :
    force = true ∨ env.confirmAnswer = true := by
  cases force with
  | true => exact Or.inl rfl
  | false =>
    cases hc : env.confirmAnswer with
    | true => exact Or.inr rfl
    | false => simp [flashUsbDrive, hc] at h

/-! ### Claim theorems -/

/-- C1: patching either boot config prepends a header and keeps the whole
original text as an unmodified suffix, so the result is never shorter than
the new entry plus the original. -/
theorem patched_boot_configs_keep_original_as_suffix (original : String) :
    patchIsolinuxCfg original = isolinuxHeader ++ original ∧
    patchGrubCfg original = grubHeader ++ original ∧
    isolinuxAutoinstallConfig.length + original.length ≤ (patchIsolinuxCfg original).length ∧
    grubAutoinstallEntry.length + original.length ≤ (patchGrubCfg original).length := by
  refine ⟨patchIsolinuxCfg_eq original, patchGrubCfg_eq original, ?_, ?_⟩
  · simp [patchIsolinuxCfg, String.length_append]
    omega
  · simp [patchGrubCfg, String.length_append]
    omega

/-- C2: the dd write runs only under the bypass flag or an affirmative
confirmation of the same flash invocation; `create` passes the bypass flag
only when exactly one drive was discovered; with several candidates a dd
write implies the interactive confirmation was affirmative; and a run in
which every confirmation is declined performs no dd write at all. -/
theorem dd_write_gated_by_confirmation :
    (∀ (device d : String) (force : Bool) (env : FlashEnv),
        ToolCall.ddWrite d ∈ (flashUsbDrive device force env).1 →
        force = true ∨ env.confirmAnswer = true) ∧
    (∀ (drives : List UsbDrive) (input : UserInput) (env : FlashEnv) (c : FlashCall),
        c ∈ (createFlashStage drives input env).2.1 → c.force = true →
        drives.length = 1) ∧
    (∀ (drives : List UsbDrive) (input : UserInput) (env : FlashEnv) (d : String),
        drives.length ≠ 1 →
        ToolCall.ddWrite d ∈ (createFlashStage drives input env).1 →
        env.confirmAnswer = true) ∧
    (∀ (drives : List UsbDrive) (input : UserInput) (env : FlashEnv) (d : String),
        input.flashPrompt = false ∨ (drives.length ≠ 1 ∧ env.confirmAnswer = false) →
        ToolCall.ddWrite d ∉ (createFlashStage drives input env).1) := by
  refine ⟨flashUsbDrive_ddWrite_gated, ?_, ?_, ?_⟩
  · intro drives input env c hc hcf
    cases drives with
    | nil => simp [createFlashStage] at hc
    | cons a tail =>
      cases tail with
      | nil => rfl
      | cons b rest =>
        by_cases hp : input.flashPrompt
        · rcases hch : input.driveChoice with _ | n
          · simp [createFlashStage, hp, hch] at hc
          · by_cases hneg : n - 1 < 0
            · simp [createFlashStage, hp, hch, hneg] at hc
            · rcases hget : (a :: b :: rest)[n.toNat - 1]? with _ | d
              · simp [createFlashStage, hp, hch, hneg, hget] at hc
              · have hcf2 : c.force = false := by
                  simp [createFlashStage, hp, hch, hneg, hget] at hc
                  simp [hc]
                rw [hcf] at hcf2
                simp at hcf2
        · simp [createFlashStage, hp] at hc
  · intro drives input env d hlen hd
    cases drives with
    | nil => simp [createFlashStage] at hd
    | cons a tail =>
      cases tail with
      | nil => exact absurd rfl hlen
      | cons b rest =>
        by_cases hp : input.flashPrompt
        · rcases hch : input.driveChoice with _ | n
          · simp [createFlashStage, hp, hch] at hd
          · by_cases hneg : n - 1 < 0
            · simp [createFlashStage, hp, hch, hneg] at hd
            · rcases hget : (a :: b :: rest)[n.toNat - 1]? with _ | dev
              · simp [createFlashStage, hp, hch, hneg, hget] at hd
              · simp [createFlashStage, hp, hch, hneg, hget] at hd
                rcases flashUsbDrive_ddWrite_gated dev.name d false env hd with h | h
                · exact absurd h (by simp)
                · exact h
        · simp [createFlashStage, hp] at hd
  · intro drives input env d h
    rcases h with hp | ⟨hlen, hcon⟩
    · cases drives with
      | nil => simp [createFlashStage]
      | cons a tail =>
        cases tail with
        | nil => simp [createFlashStage, hp]
        | cons b rest => simp [createFlashStage, hp]
    · cases drives with
      | nil => simp [createFlashStage]
      | cons a tail =>
        cases tail with
        | nil => exact absurd rfl hlen
        | cons b rest =>
          by_cases hp : input.flashPrompt
          · rcases hch : input.driveChoice with _ | n
            · simp [createFlashStage, hp, hch]
            · by_cases hneg : n - 1 < 0
              · simp [createFlashStage, hp, hch, hneg]
              · rcases hget : (a :: b :: rest)[n.toNat - 1]? with _ | dev
                · simp [createFlashStage, hp, hch, hneg, hget]
                · simp [createFlashStage, hp, hch, hneg, hget, flashUsbDrive, hcon]
          · simp [createFlashStage, hp]

/-- Witness for C2 at concrete inputs: the gating disjunction holds for a
forced flash, and a declined-everything run on one drive performs no dd
write. -/
theorem dd_write_gated_by_confirmation_witness :
    (true = true ∨ (⟨true, true, true, true⟩ : FlashEnv).confirmAnswer = true) ∧
    ToolCall.ddWrite "/dev/sdb" ∉
      (createFlashStage [⟨"/dev/sdb", "16G"⟩] ⟨false, none⟩ ⟨false, true, true, true⟩).1 :=
  ⟨dd_write_gated_by_confirmation.1 "/dev/sdb" "/dev/sdb" true ⟨true, true, true, true⟩
      (by decide),
   dd_write_gated_by_confirmation.2.2.2 [⟨"/dev/sdb", "16G"⟩] ⟨false, none⟩
      ⟨false, true, true, true⟩ "/dev/sdb" (Or.inl rfl)⟩

/-- C3 counterexample: with a failing eject after a successful dd write,
the flash run does not end in success and the `create` flash section ends
fatally instead of completing. -/
theorem eject_failure_counterexample :
    (flashUsbDrive "/dev/sdb" true ⟨true, true, true, false⟩).2 ≠ FlashOutcome.success ∧
    ToolCall.ddWrite "/dev/sdb" ∈ (flashUsbDrive "/dev/sdb" true ⟨true, true, true, false⟩).1 ∧
    (createFlashStage [⟨"/dev/sdb", "16G"⟩] ⟨true, none⟩ ⟨true, true, true, false⟩).2.2 =
      StageOutcome.fatalError := by
  decide

/-- C3 amended: an eject failure after a successful write is fatal — the
write did happen (the dd call is in the trace) but the flash invocation
ends in `fatalError`, which propagates and aborts the rest of `create`
instead of being swallowed. -/
theorem eject_failure_is_fatal (device : String) (force : Bool) (env : FlashEnv)
    (hdd : env.ddOk = true) (hej : env.ejectOk = false)
    (hrun : force = true ∨ env.confirmAnswer = true) :
    (flashUsbDrive device force env).1 =
      [ToolCall.umount device, ToolCall.ddWrite device, ToolCall.eject device] ∧
    (flashUsbDrive device force env).2 = FlashOutcome.fatalError ∧
    liftOutcome (flashUsbDrive device force env).2 = StageOutcome.fatalError := by
  rcases hrun with h | h <;> simp [flashUsbDrive, liftOutcome, h, hdd, hej]

/-- Witness for C3's amended claim at a concrete flash invocation. -/
theorem eject_failure_is_fatal_witness :
    (flashUsbDrive "/dev/sdb" true ⟨true, true, true, false⟩).1 =
      [ToolCall.umount "/dev/sdb", ToolCall.ddWrite "/dev/sdb", ToolCall.eject "/dev/sdb"] ∧
    (flashUsbDrive "/dev/sdb" true ⟨true, true, true, false⟩).2 = FlashOutcome.fatalError ∧
    liftOutcome (flashUsbDrive "/dev/sdb" true ⟨true, true, true, false⟩).2 =
      StageOutcome.fatalError :=
  eject_failure_is_fatal "/dev/sdb" true ⟨true, true, true, false⟩ rfl rfl (Or.inl rfl)

/-- C4: when the post-install config file is absent (and the earlier
stages can succeed), `create` aborts with an error naming the config path,
the bootloader patching stage never runs, and both workspace boot configs
are left untouched. -/
theorem missing_config_aborts_before_patching (env : BuildEnv)
    (hx : env.xorrisoAvailable = true) (he : env.extractOk = true)
    (hp : env.preseedExists = true) (hc : env.postInstallConfigExists = false) :
    (∃ a b, (createPipeline env).2.2 = BuildResult.fatal (a ++ POST_INSTALL_CONFIG ++ b)) ∧
    Stage.updateBootloader ∉ (createPipeline env).1 ∧
    (createPipeline env).2.1.isolinuxCfg = env.isolinuxCfg ∧
    (createPipeline env).2.1.grubCfg = env.grubCfg := by
  refine ⟨⟨"Error: Post-install config not found at \x27", "\x27.", ?_⟩, ?_, ?_, ?_⟩ <;>
    simp [createPipeline, hx, he, hp, hc]

/-- Witness for C4 at a concrete environment with only the post-install
config missing. -/
theorem missing_config_aborts_before_patching_witness :
    (∃ a b,
        (createPipeline ⟨true, true, true, false, ⟨none, none⟩, "ISO-ORIG", "GRUB-ORIG",
            true⟩).2.2 = BuildResult.fatal (a ++ POST_INSTALL_CONFIG ++ b)) ∧
    Stage.updateBootloader ∉
      (createPipeline ⟨true, true, true, false, ⟨none, none⟩, "ISO-ORIG", "GRUB-ORIG",
          true⟩).1 ∧
    (createPipeline ⟨true, true, true, false, ⟨none, none⟩, "ISO-ORIG", "GRUB-ORIG",
        true⟩).2.1.isolinuxCfg = "ISO-ORIG" ∧
    (createPipeline ⟨true, true, true, false, ⟨none, none⟩, "ISO-ORIG", "GRUB-ORIG",
        true⟩).2.1.grubCfg = "GRUB-ORIG" :=
  missing_config_aborts_before_patching
    ⟨true, true, true, false, ⟨none, none⟩, "ISO-ORIG", "GRUB-ORIG", true⟩ rfl rfl rfl rfl

/-- C5: every failing enumeration outcome — missing tool, nonzero exit, or
unparseable output — makes the locator return the empty list (the Lean
embedding is total, mirroring that no exception escapes the handler). -/
theorem find_usb_drives_total_on_failure (r : LsblkResult)
    (h : r = LsblkResult.toolMissing ∨ r = LsblkResult.exitNonzero ∨ r = LsblkResult.badJson) :
    findUsbDrives r = [] := by
  rcases h with h | h | h <;> subst h <;> rfl

/-- Witness for C5 at the missing-tool outcome. -/
theorem find_usb_drives_total_on_failure_witness :
    findUsbDrives LsblkResult.toolMissing = [] :=
  find_usb_drives_total_on_failure LsblkResult.toolMissing (Or.inl rfl)

/-- C6: every returned descriptor stems from an enumerated device with USB
transport and whole-disk class, and on the mixed example list exactly the
single USB whole disk is returned. -/
theorem usb_filter_keeps_only_usb_whole_disks :
    (∀ (devices : List BlockDevice) (u : UsbDrive),
        u ∈ findUsbDrives (LsblkResult.ok devices) →
        ∃ dev, dev ∈ devices ∧ dev.tran = some "usb" ∧ dev.devType = some "disk" ∧
          u = ⟨"/dev/" ++ dev.name, dev.size⟩) ∧
    findUsbDrives (LsblkResult.ok mixedDeviceList) = [⟨"/dev/sdb", "16G"⟩] := by
  constructor
  · intro devices u hu
    simp only [findUsbDrives, List.mem_map, List.mem_filter] at hu
    rcases hu with ⟨dev, ⟨hmem, hflt⟩, hu⟩
    rw [Bool.and_eq_true, beq_iff_eq, beq_iff_eq] at hflt
    exact ⟨dev, hmem, hflt.1, hflt.2, hu.symm⟩
  · decide

/-- Witness for C6: the descriptor returned on the mixed list does come
from a USB whole disk of that list. -/
theorem usb_filter_keeps_only_usb_whole_disks_witness :
    ∃ dev, dev ∈ mixedDeviceList ∧ dev.tran = some "usb" ∧ dev.devType = some "disk" ∧
      (⟨"/dev/sdb", "16G"⟩ : UsbDrive) = ⟨"/dev/" ++ dev.name, dev.size⟩ :=
  usb_filter_keeps_only_usb_whole_disks.1 mixedDeviceList ⟨"/dev/sdb", "16G"⟩ (by decide)

/-- C7: omitting `ssh_key` (or its sub-fields) yields algorithm `ed25519`
and user `user` in the generated script, and omitting `packages` yields
the empty package list. -/
theorem omitted_fields_fall_back_to_defaults :
    ∀ (pk : Option (List String)) (t u : Option String) (sk : Option SshKeyConfig),
      effectiveSshKeyType ⟨pk, none⟩ = "ed25519" ∧
      effectiveSshUser ⟨pk, none⟩ = "user" ∧
      effectiveSshKeyType ⟨pk, some ⟨none, u⟩⟩ = "ed25519" ∧
      effectiveSshUser ⟨pk, some ⟨t, none⟩⟩ = "user" ∧
      effectivePackages ⟨none, sk⟩ = [] ∧
      generatePostInstallScript ⟨pk, none⟩ =
        scriptHead ++ packagesJoined ⟨pk, none⟩ ++ scriptAfterPackages
          ++ keygenCmd "user" "ed25519" ++ scriptTail :=
  fun _ _ _ _ => ⟨rfl, rfl, rfl, rfl, rfl, rfl⟩

/-- C8: with an empty package list the install invocation of the generated
script is still the well-formed four-token `apt-get install` command. -/
theorem empty_packages_wellformed_install (cfg : PostInstallConfig)
    (h : effectivePackages cfg = []) :
    wordsOf ("apt-get install -y --no-install-recommends " ++ packagesJoined cfg) =
      ["apt-get", "install", "-y", "--no-install-recommends"] ∧
    ∃ a b, generatePostInstallScript cfg =
      a ++ ("apt-get install -y --no-install-recommends " ++ packagesJoined cfg) ++ b := by
  have hj : packagesJoined cfg = "" := by
    unfold packagesJoined
    rw [h]
    rfl
  constructor
  · rw [hj]
    decide
  · refine ⟨"#!/bin/bash\nset -e\n\n# --- Install packages ---\napt-get update\n",
      scriptAfterPackages ++ keygenCmd (effectiveSshUser cfg) (effectiveSshKeyType cfg)
        ++ scriptTail, ?_⟩
    have hsplit : scriptHead =
        "#!/bin/bash\nset -e\n\n# --- Install packages ---\napt-get update\n" ++
          "apt-get install -y --no-install-recommends " := rfl
    rw [generatePostInstallScript, hsplit]
    simp only [String.append_assoc]

/-- Witness for C8 at the config with an explicitly empty package list. -/
theorem empty_packages_wellformed_install_witness :
    wordsOf ("apt-get install -y --no-install-recommends " ++ packagesJoined ⟨some [], none⟩) =
      ["apt-get", "install", "-y", "--no-install-recommends"] ∧
    ∃ a b, generatePostInstallScript ⟨some [], none⟩ =
      a ++ ("apt-get install -y --no-install-recommends " ++ packagesJoined ⟨some [], none⟩)
        ++ b :=
  empty_packages_wellformed_install ⟨some [], none⟩ rfl

/-- C9: bootloader patching is not idempotent — patching an already
patched text prepends the header a second time, so the result of patching
twice is strictly longer than, and different from, patching once. -/
theorem patching_not_idempotent (s : String) :
    patchIsolinuxCfg (patchIsolinuxCfg s) = isolinuxHeader ++ (isolinuxHeader ++ s) ∧
    patchGrubCfg (patchGrubCfg s) = grubHeader ++ (grubHeader ++ s) ∧
    (patchIsolinuxCfg s).length < (patchIsolinuxCfg (patchIsolinuxCfg s)).length ∧
    (patchGrubCfg s).length < (patchGrubCfg (patchGrubCfg s)).length ∧
    patchIsolinuxCfg (patchIsolinuxCfg s) ≠ patchIsolinuxCfg s ∧
    patchGrubCfg (patchGrubCfg s) ≠ patchGrubCfg s := by
  have hi : (0 : Nat) < isolinuxHeader.length := by
    simp only [isolinuxHeader, String.length_append]
    have h0 : (0 : Nat) < ("TIMEOUT 10\n" : String).length := by decide
    omega
  have hg : (0 : Nat) < grubHeader.length := by
    simp only [grubHeader, String.length_append]
    have h0 : (0 : Nat) < ("set timeout=1\nset default=\"0\"\n\n" : String).length := by decide
    omega
  have l1 : ∀ t : String, (patchIsolinuxCfg t).length = isolinuxHeader.length + t.length := by
    intro t
    rw [patchIsolinuxCfg_eq, String.length_append]
  have l2 : ∀ t : String, (patchGrubCfg t).length = grubHeader.length + t.length := by
    intro t
    rw [patchGrubCfg_eq, String.length_append]
  refine ⟨?_, ?_, ?_, ?_, ?_, ?_⟩
  · rw [patchIsolinuxCfg_eq, patchIsolinuxCfg_eq]
  · rw [patchGrubCfg_eq, patchGrubCfg_eq]
  · simp only [l1]
    omega
  · simp only [l2]
    omega
  · intro hEq
    have hl := congrArg String.length hEq
    simp only [l1] at hl
    omega
  · intro hEq
    have hl := congrArg String.length hEq
    simp only [l2] at hl
    omega

/-- C10: for every config the key-generation line targets the fixed file
`/home/<user>/.ssh/id_rsa` — the filename is `id_rsa` no matter which key
algorithm is configured. -/
theorem keygen_path_is_fixed_id_rsa (cfg : PostInstallConfig) :
    ∃ a b, generatePostInstallScript cfg =
      a ++ ("-f /home/" ++ effectiveSshUser cfg ++ "/.ssh/id_rsa") ++ b := by
  refine ⟨scriptHead ++ packagesJoined cfg ++ scriptAfterPackages
      ++ ("sudo -u " ++ effectiveSshUser cfg ++ " ssh-keygen -t "
          ++ effectiveSshKeyType cfg ++ " "),
    " -N \"\"" ++ scriptTail, ?_⟩
  have hk : keygenCmd (effectiveSshUser cfg) (effectiveSshKeyType cfg) =
      ("sudo -u " ++ effectiveSshUser cfg ++ " ssh-keygen -t "
          ++ effectiveSshKeyType cfg ++ " ")
        ++ ("-f /home/" ++ effectiveSshUser cfg ++ "/.ssh/id_rsa") ++ " -N \"\"" := by
    have h1 : (" -f /home/" : String) = " " ++ "-f /home/" := rfl
    have h2 : ("/.ssh/id_rsa -N \"\"" : String) = "/.ssh/id_rsa" ++ " -N \"\"" := rfl
    rw [keygenCmd, h1, h2]
    simp only [String.append_assoc]
  rw [generatePostInstallScript, hk]
  simp only [String.append_assoc]

end DebianIsoCustomizer
